import Mathlib

/-!
Shallow embedding of the shelter-recommendation core of
`src/Root_Project/app.py` (Flask app `KSU_0`): the priority-weight table,
the score engine `calculate_recommendation_score`, the sanitizer helpers
`safe_int` / `safe_str`, and the selection / re-ranking pipeline of the
`get_disaster_shelters`, `recalculate_shelters` and `get_nearest_shelters`
handlers.  Python floats are modelled as rationals; the Python `round(x, 1)`
is modelled as round-half-to-even on rationals.
-/

/-- Model of the Python values the sanitizer helpers can receive from the
JSON body: an integer, a string, or `None` (also standing for a missing
key, since `dict.get` returns `None` then). -/
inductive PyVal where
  | int (n : ℤ)
  | str (s : String)
  | none
deriving DecidableEq

/-- Decimal digit accumulator for `parsePyInt`: `some` of the number when
every character is a digit and the list is non-empty, else `none`. -/
def digitsToNat (cs : List Char) : Option ℕ :=
  match cs with
  | [] => Option.none
  | _ =>
    cs.foldl
      (fun acc c =>
        match acc with
        | Option.none => Option.none
        | some n => if c.isDigit then some (n * 10 + (c.toNat - 48))
                    else Option.none)
      (some 0)

/-- Model of the Python `int(...)` on a string: an optional sign followed by
one or more decimal digits (Python additionally strips surrounding
whitespace and accepts underscores between digits; no claim depends on
those inputs). -/
def parsePyInt (s : String) : Option ℤ :=
  match s.toList with
  | '-' :: rest => (digitsToNat rest).map (fun n => -(n : ℤ))
  | '+' :: rest => (digitsToNat rest).map (fun n => (n : ℤ))
  | cs => (digitsToNat cs).map (fun n => (n : ℤ))

/-- Embedding of `safe_int(val, default)` from app.py: `int(val)`, falling
back to the supplied default on `ValueError` / `TypeError` (non-numeric
string or `None`).  The Python default parameter value is 0; both call
sites pass the default explicitly (1 for adults, 0 for children), so the
default is an explicit argument here. -/
def safe_int (val : PyVal) (d : ℤ) : ℤ :=
  match val with
  | .int n => n
  | .str s => (parsePyInt s).getD d
  | .none => d

/-- Embedding of `safe_str(val, default)` from app.py: returns the default
(Python default parameter value `"中"`) when `val` is `None` or the empty
string, else `str(val)`. -/
def safe_str (val : PyVal) (d : String) : String :=
  match val with
  | .none => d
  | .str s => if s = "" then d else s
  | .int n => toString n

/-- The `PRIORITY_WEIGHTS` dict from `calculate_recommendation_score`,
as an association list. -/
def PRIORITY_WEIGHTS : List (String × ℤ) :=
  [("最高", 10), ("高", 6), ("中", 3), ("低", -5), ("最低", -20)]

/-- Embedding of `PRIORITY_WEIGHTS.get(priority, 3)`: dictionary lookup
with default weight 3. -/
def priorityWeight (label : String) : ℤ :=
  (PRIORITY_WEIGHTS.lookup label).getD 3

/-- The three supply items the scoring loop iterates over
(`"supply_a"`, `"supply_b"`, `"supply_c"`). -/
inductive Item where
  | a
  | b
  | c
deriving DecidableEq

/-- The iteration order of the scoring loop. -/
def itemList : List Item := [.a, .b, .c]

/-- The `needs` dict of a user profile: one optional priority label per
supply item (`dict.get(item, "中")` is used on it, so absence is
representable). -/
structure Needs where
  supply_a : Option String
  supply_b : Option String
  supply_c : Option String
deriving DecidableEq

/-- Embedding of `user_profile["needs"].get(item, ...)` key access. -/
def Needs.get (n : Needs) : Item → Option String
  | .a => n.supply_a
  | .b => n.supply_b
  | .c => n.supply_c

/-- The `user_profile` dict passed to `calculate_recommendation_score`. -/
structure UserProfile where
  needs : Needs
  total_people : ℤ
deriving DecidableEq

/-- The `shelter_features` dict: congestion plus one stock level per item. -/
structure ShelterFeatures where
  congestion : ℚ
  supply_a : ℚ
  supply_b : ℚ
  supply_c : ℚ
deriving DecidableEq

/-- Embedding of `shelter_features[item]` key access for the three items. -/
def ShelterFeatures.stock (f : ShelterFeatures) : Item → ℚ
  | .a => f.supply_a
  | .b => f.supply_b
  | .c => f.supply_c

/-- One iteration of the supply loop in `calculate_recommendation_score`:
given the accumulator `(total_weight, acquired_weight)`, look up the
priority weight, add positive weights to `total_weight`, and add `weight`
(stock ≥ 20), `weight * 0.5` (0 < stock < 20) or nothing to
`acquired_weight`. -/
def supplyStep (needs : Needs) (f : ShelterFeatures) (item : Item)
    (acc : ℤ × ℚ) : ℤ × ℚ :=
  let priority := (needs.get item).getD "中"
  let weight := priorityWeight priority
  let total_weight := if weight > 0 then acc.1 + weight else acc.1
  let item_stock := f.stock item
  let acquired_weight :=
    if item_stock ≥ 20 then acc.2 + (weight : ℚ)
    else if item_stock > 0 then acc.2 + (weight : ℚ) * 0.5
    else acc.2
  (total_weight, acquired_weight)

/-- The full supply loop: fold `supplyStep` over the three items starting
from `total_weight = 0`, `acquired_weight = 0`. -/
def supplyLoop (needs : Needs) (f : ShelterFeatures) : ℤ × ℚ :=
  itemList.foldl (fun acc item => supplyStep needs f item acc) (0, 0)

/-- The supply sub-score of `calculate_recommendation_score`:
`(acquired_weight / total_weight) * 100` when `total_weight > 0`, else
`100 + acquired_weight`, then clamped above at 100 (no lower clamp). -/
def supply_score_raw (needs : Needs) (f : ShelterFeatures) : ℚ :=
  let total_weight := (supplyLoop needs f).1
  let acquired_weight := (supplyLoop needs f).2
  let supply_score :=
    if total_weight > 0 then (acquired_weight / (total_weight : ℚ)) * 100.0
    else 100.0 + acquired_weight
  min 100.0 supply_score

/-- Round-half-to-even to an integer on rationals, modelling the rounding
mode of the Python built-in `round`. -/
def roundHalfEven (q : ℚ) : ℤ :=
  if q - ⌊q⌋ < 1/2 then ⌊q⌋
  else if q - ⌊q⌋ > 1/2 then ⌊q⌋ + 1
  else if ⌊q⌋ % 2 = 0 then ⌊q⌋ else ⌊q⌋ + 1

/-- Model of the Python `round(q, 1)`: round `q * 10` half-to-even, divide
by 10. -/
def pyRound1 (q : ℚ) : ℚ := (roundHalfEven (q * 10) : ℚ) / 10

/-- Embedding of `calculate_recommendation_score(user_profile,
shelter_features)`: returns `(round(total_score, 1), round(supply_score,
1))`.  The three branch tests on `people_count >= 6` correspond to the
single Python `if` that assigns `congestion_score`, `w_congestion` and
`w_supply` in one of its two arms. -/
def calculate_recommendation_score (p : UserProfile) (f : ShelterFeatures) :
    ℚ × ℚ :=
  let congestion_val := f.congestion
  let supply_score := supply_score_raw p.needs f
  let people_count := p.total_people
  let congestion_score :=
    if people_count ≥ 6 then max 0 (100 - congestion_val) else congestion_val
  let w_congestion : ℚ := if people_count ≥ 6 then 7.0 else 5.0
  let w_supply : ℚ := if people_count ≥ 6 then 3.0 else 5.0
  let total_score :=
    ((congestion_score * w_congestion) + (supply_score * w_supply))
      / (w_congestion + w_supply)
  (pyRound1 total_score, pyRound1 supply_score)

/-- The priority weight of one item of a needs dict, as the loop looks it
up: `PRIORITY_WEIGHTS.get(needs.get(item, "中"), 3)`. -/
def itemWeight (needs : Needs) (i : Item) : ℤ :=
  priorityWeight ((needs.get i).getD "中")

/-- Positive part of a weight, for the claim-side "sum of the positive
priority weights". -/
def posW (w : ℤ) : ℤ := if 0 < w then w else 0

/-- Claim-side per-item acquired weight, following the spec sentence: the
item full weight `w` when its stock is ≥ 20, `w * 0.5` when
0 < stock < 20, and 0 when stock is 0 (regardless of the sign of `w`). -/
def claimItemAcquired (w : ℤ) (stock : ℚ) : ℚ :=
  if 20 ≤ stock then (w : ℚ)
  else if 0 < stock ∧ stock < 20 then (w : ℚ) * 0.5
  else 0

/-- Claim-side `totalWeight`: the sum of the positive priority weights
over the three items. -/
def claimTotalWeight (needs : Needs) : ℤ :=
  posW (itemWeight needs .a) + posW (itemWeight needs .b)
    + posW (itemWeight needs .c)

/-- Claim-side `acquiredWeight`: the sum of the per-item acquired weights
over the three items. -/
def claimAcquiredWeight (needs : Needs) (f : ShelterFeatures) : ℚ :=
  claimItemAcquired (itemWeight needs .a) f.supply_a
    + claimItemAcquired (itemWeight needs .b) f.supply_b
    + claimItemAcquired (itemWeight needs .c) f.supply_c

/-- Claim-side congestion sub-score: `max(0, 100 - congestion)` for groups
of 6 or more, the reported congestion value itself otherwise. -/
def claimCongestionScore (p : UserProfile) (f : ShelterFeatures) : ℚ :=
  if p.total_people ≥ 6 then max 0 (100 - f.congestion) else f.congestion

/-- Claim-side weight pair `(congestion weight, supply weight)`:
`(7, 3)` for groups of 6 or more, `(5, 5)` otherwise. -/
def claimWeights (p : UserProfile) : ℚ × ℚ :=
  if p.total_people ≥ 6 then (7, 3) else (5, 5)

/-- Claim-side composite score: the weighted average
`(congestionScore * wCongestion + supplyScore * wSupply) /
(wCongestion + wSupply)` of the congestion sub-score and the clamped
supply sub-score. -/
def claimComposite (p : UserProfile) (f : ShelterFeatures) : ℚ :=
  (claimCongestionScore p f * (claimWeights p).1
      + supply_score_raw p.needs f * (claimWeights p).2)
    / ((claimWeights p).1 + (claimWeights p).2)

/-- The raw profile fields a request handler reads from the JSON body
(`data.get(...)` results, so a missing key is `PyVal.none`). -/
structure RawRequest where
  adult_count : PyVal
  child_count : PyVal
  supply_a : PyVal
  supply_b : PyVal
  supply_c : PyVal

/-- The profile construction shared verbatim by `get_disaster_shelters`
and `recalculate_shelters`: `adult = safe_int(data.get("adult_count"), 1)`,
`child = safe_int(data.get("child_count"), 0)`,
`total = max(1, adult + child)`, and each priority through `safe_str`
with default `"中"`. -/
def buildUserProfile (data : RawRequest) : UserProfile :=
  let adult := safe_int data.adult_count 1
  let child := safe_int data.child_count 0
  let total := max 1 (adult + child)
  { needs := { supply_a := some (safe_str data.supply_a "中"),
               supply_b := some (safe_str data.supply_b "中"),
               supply_c := some (safe_str data.supply_c "中") },
    total_people := total }

/-- A shelter candidate as built in `get_disaster_shelters` and
`get_nearest_shelters`: name, coordinates and the geodesic distance to
the user location (an opaque non-negative value supplied by the external
distance function, modelled as a rational). -/
structure Candidate where
  name : String
  lat : ℚ
  lng : ℚ
  distance : ℚ
deriving DecidableEq

/-- The comparison of `sorted(candidates, key=lambda x: x["distance"])`. -/
def distLe (a b : Candidate) : Bool := decide (a.distance ≤ b.distance)

/-- Embedding of `sorted(candidates, key=lambda x: x["distance"])`:
the Python sort is a stable merge sort and returns a fresh list, modelled
by `List.mergeSort`. -/
def sortByDistance (l : List Candidate) : List Candidate := l.mergeSort distLe

/-- Embedding of `nearest_5 = sorted(candidates, key=...)[:5]` in
`get_disaster_shelters`. -/
def nearest5 (l : List Candidate) : List Candidate := (sortByDistance l).take 5

/-- Embedding of the window logic of `get_nearest_shelters` applied to
the already distance-sorted list: `[]` when the list is empty, otherwise
the slice `sorted_s[start_idx:end_idx]` with
`start_idx = 1 if len(sorted_s) >= 2 else 0` and
`end_idx = 4 if len(sorted_s) >= 4 else len(sorted_s)`. -/
def get_nearest_window (sorted_s : List Candidate) : List Candidate :=
  if sorted_s = [] then []
  else
    let start_idx := if sorted_s.length ≥ 2 then 1 else 0
    let end_idx := if sorted_s.length ≥ 4 then 4 else sorted_s.length
    (sorted_s.take end_idx).drop start_idx

/-- Embedding of the `get_nearest_shelters` handler core: sort all
shelters by distance ascending, then return the window. -/
def get_nearest_shelters (shelters : List Candidate) : List Candidate :=
  get_nearest_window (sortByDistance shelters)

/-- One entry of `shelter_list` in `recalculate_shelters`: a previously
returned result dict, with `data` the preserved feature snapshot. -/
structure ScoredShelter where
  name : String
  lat : ℚ
  lng : ℚ
  distance : ℚ
  data : ShelterFeatures
  match_score : ℚ
  match_rate : ℚ
deriving DecidableEq

/-- The per-entry update of `recalculate_shelters`: recompute both scores
from the entry existing `data` and overwrite `match_score` /
`match_rate`, leaving every other field unchanged. -/
def rescoreEntry (p : UserProfile) (item : ScoredShelter) : ScoredShelter :=
  { item with
      match_score := (calculate_recommendation_score p item.data).1,
      match_rate := (calculate_recommendation_score p item.data).2 }

/-- The comparison of
`sorted(results, key=lambda x: x["match_score"], reverse=True)`:
descending by `match_score`.  the Python reverse sort keeps equal elements
in list order, modelled by a stable merge sort under this comparison. -/
def scoreDescLe (a b : ScoredShelter) : Bool :=
  decide (b.match_score ≤ a.match_score)

/-- The list transformation of `recalculate_shelters`: rescore every
entry against the new profile, then sort descending by `match_score`. -/
def recalcCore (p : UserProfile) (shelter_list : List ScoredShelter) :
    List ScoredShelter :=
  (shelter_list.map (rescoreEntry p)).mergeSort scoreDescLe

/-- The JSON body of a `recalculate_shelters` request: the optional
`shelter_list` (`data.get("shelter_list", [])`) plus the raw profile
fields. -/
structure RecalcRequest where
  shelter_list : Option (List ScoredShelter)
  adult_count : PyVal
  child_count : PyVal
  supply_a : PyVal
  supply_b : PyVal
  supply_c : PyVal

/-- Embedding of the `recalculate_shelters` handler: a missing
`shelter_list` silently defaults to `[]`, the profile is sanitized by the
shared construction, each entry is re-scored and the list re-sorted, and
the handler answers with the list (`Except.ok`, i.e. HTTP 200).  The
`except` branch (error payload, HTTP 500) is unreachable for well-typed
bodies since every step is total. -/
def recalculate_shelters (req : RecalcRequest) :
    Except String (List ScoredShelter) :=
  let shelter_list := req.shelter_list.getD []
  let user_profile := buildUserProfile
    ⟨req.adult_count, req.child_count, req.supply_a, req.supply_b,
      req.supply_c⟩
  Except.ok (recalcCore user_profile shelter_list)

/-- The first accumulator component of one loop step adds exactly the
positive part of the item weight. -/
lemma supplyStep_fst (needs : Needs) (f : ShelterFeatures) (i : Item)
    (acc : ℤ × ℚ) :
    (supplyStep needs f i acc).1 = acc.1 + posW (itemWeight needs i) := by
  simp only [supplyStep, posW, itemWeight]
  split_ifs with h <;> simp_all

/-- The second accumulator component of one loop step adds exactly the
claim-side per-item acquired weight. -/
lemma supplyStep_snd (needs : Needs) (f : ShelterFeatures) (i : Item)
    (acc : ℤ × ℚ) :
    (supplyStep needs f i acc).2
      = acc.2 + claimItemAcquired (itemWeight needs i) (f.stock i) := by
  simp only [supplyStep, claimItemAcquired, itemWeight, ge_iff_le]
  by_cases h20 : (20 : ℚ) ≤ f.stock i
  · rw [if_pos h20, if_pos h20]
  · rw [if_neg h20, if_neg h20]
    by_cases hpos : f.stock i > 0
    · rw [if_pos hpos, if_pos ⟨hpos, not_le.mp h20⟩]
    · rw [if_neg hpos, if_neg fun hc => hpos hc.1, add_zero]

/-- The loop `total_weight` equals the claim-side `totalWeight`. -/
lemma supplyLoop_fst (needs : Needs) (f : ShelterFeatures) :
    (supplyLoop needs f).1 = claimTotalWeight needs := by
  simp only [supplyLoop, itemList, List.foldl]
  rw [supplyStep_fst, supplyStep_fst, supplyStep_fst, claimTotalWeight]
  ring

/-- The loop `acquired_weight` equals the claim-side `acquiredWeight`. -/
lemma supplyLoop_snd (needs : Needs) (f : ShelterFeatures) :
    (supplyLoop needs f).2 = claimAcquiredWeight needs f := by
  simp only [supplyLoop, itemList, List.foldl]
  rw [supplyStep_snd, supplyStep_snd, supplyStep_snd, claimAcquiredWeight]
  simp only [ShelterFeatures.stock]
  ring

/-- The second returned component is the rounded raw supply score. -/
lemma calc_score_snd (p : UserProfile) (f : ShelterFeatures) :
    (calculate_recommendation_score p f).2
      = pyRound1 (supply_score_raw p.needs f) := rfl

/-- Characterization of the raw supply score through the claim-side
`totalWeight` / `acquiredWeight` sums. -/
lemma supply_score_raw_eq (needs : Needs) (f : ShelterFeatures) :
    supply_score_raw needs f
      = min 100 (if 0 < claimTotalWeight needs
          then claimAcquiredWeight needs f / (claimTotalWeight needs : ℚ) * 100
          else 100 + claimAcquiredWeight needs f) := by
  simp only [supply_score_raw, supplyLoop_fst, supplyLoop_snd, gt_iff_lt]
  norm_num

/-- Every claim-side per-item acquired weight is half an integer. -/
lemma claimItemAcquired_half (w : ℤ) (s : ℚ) :
    ∃ k : ℤ, claimItemAcquired w s = (k : ℚ) / 2 := by
  unfold claimItemAcquired
  split_ifs
  · exact ⟨2 * w, by push_cast; ring⟩
  · exact ⟨w, by ring⟩
  · exact ⟨0, by norm_num⟩

/-- The claim-side acquired weight is half an integer. -/
lemma claimAcquiredWeight_half (needs : Needs) (f : ShelterFeatures) :
    ∃ k : ℤ, claimAcquiredWeight needs f = (k : ℚ) / 2 := by
  obtain ⟨ka, hka⟩ := claimItemAcquired_half (itemWeight needs .a) f.supply_a
  obtain ⟨kb, hkb⟩ := claimItemAcquired_half (itemWeight needs .b) f.supply_b
  obtain ⟨kc, hkc⟩ := claimItemAcquired_half (itemWeight needs .c) f.supply_c
  exact ⟨ka + kb + kc, by
    unfold claimAcquiredWeight
    rw [hka, hkb, hkc]; push_cast; ring⟩

/-- `pyRound1` is the identity on half-integers (hence on every value the
`totalWeight == 0` branch can produce). -/
lemma pyRound1_half (k : ℤ) : pyRound1 ((k : ℚ) / 2) = (k : ℚ) / 2 := by
  have h10 : ((k : ℚ) / 2) * 10 = ((5 * k : ℤ) : ℚ) := by push_cast; ring
  unfold pyRound1 roundHalfEven
  rw [h10, Int.floor_intCast]
  norm_num
  ring

/-- The upper clamp of a half-integer against 100 is a half-integer. -/
lemma min100_half (k : ℤ) :
    ∃ m : ℤ, min (100 : ℚ) (100 + (k : ℚ) / 2) = (m : ℚ) / 2 := by
  rcases le_total (100 : ℚ) (100 + (k : ℚ) / 2) with h | h
  · exact ⟨200, by rw [min_eq_left h]; norm_num⟩
  · exact ⟨200 + k, by rw [min_eq_right h]; push_cast; ring⟩

/-- Full-stock items contribute their full weight on the claim side. -/
lemma claimItemAcquired_full (w : ℤ) (s : ℚ) (h : 20 ≤ s) :
    claimItemAcquired w s = (w : ℚ) := by
  unfold claimItemAcquired
  rw [if_pos h]

/-- C1: for every user profile and shelter feature snapshot with positive
`totalWeight` (sum of the positive priority weights over the three items),
the raw supply sub-score is `(acquiredWeight / totalWeight) * 100` capped
above at 100 with no lower clamp, where `acquiredWeight` adds, per item,
the full weight `w` for stock ≥ 20, `w * 0.5` for 0 < stock < 20 and 0
otherwise, regardless of the sign of `w`; the returned supply sub-score is
that value rounded to one decimal place. -/
theorem c1_supply_score_positive_total (p : UserProfile) (f : ShelterFeatures)
    (hw : 0 < claimTotalWeight p.needs) :
    supply_score_raw p.needs f
        = min 100 (claimAcquiredWeight p.needs f
            / (claimTotalWeight p.needs : ℚ) * 100)
      ∧ (calculate_recommendation_score p f).2
        = pyRound1 (min 100 (claimAcquiredWeight p.needs f
            / (claimTotalWeight p.needs : ℚ) * 100)) := by
  have h1 := supply_score_raw_eq p.needs f
  rw [if_pos hw] at h1
  exact ⟨h1, by rw [calc_score_snd, h1]⟩

/-- Witness for C1 at a concrete profile (all three items Highest) and
snapshot. -/
theorem c1_supply_score_positive_total_witness :
    0 < claimTotalWeight ⟨some "最高", some "最高", some "最高"⟩
      ∧ ((calculate_recommendation_score
            ⟨⟨some "最高", some "最高", some "最高"⟩, 4⟩ ⟨30, 25, 10, 0⟩).2
        = pyRound1 (min 100
            (claimAcquiredWeight ⟨some "最高", some "最高", some "最高"⟩
                ⟨30, 25, 10, 0⟩
              / (claimTotalWeight ⟨some "最高", some "最高", some "最高"⟩ : ℚ)
              * 100))) :=
  ⟨by decide,
    (c1_supply_score_positive_total
      ⟨⟨some "最高", some "最高", some "最高"⟩, 4⟩ ⟨30, 25, 10, 0⟩
      (by decide)).2⟩

/-- C2: when all three item priorities carry non-positive weights (so
`totalWeight == 0`), the returned supply sub-score is
`min(100, 100 + acquiredWeight)` (rounding is the identity there, since
every acquired weight is a half-integer); in particular, all items at
Lowest with zero stock everywhere yields 100, and all items at Lowest
with stock ≥ 20 everywhere yields 40. -/
theorem c2_supply_score_zero_total :
    (∀ (p : UserProfile) (f : ShelterFeatures),
        itemWeight p.needs .a ≤ 0 → itemWeight p.needs .b ≤ 0 →
        itemWeight p.needs .c ≤ 0 →
        (calculate_recommendation_score p f).2
          = min 100 (100 + claimAcquiredWeight p.needs f))
      ∧ (∀ (tp : ℤ) (c : ℚ),
        (calculate_recommendation_score
            ⟨⟨some "最低", some "最低", some "最低"⟩, tp⟩ ⟨c, 0, 0, 0⟩).2 = 100)
      ∧ (∀ (tp : ℤ) (c sa sb sc : ℚ), 20 ≤ sa → 20 ≤ sb → 20 ≤ sc →
        (calculate_recommendation_score
            ⟨⟨some "最低", some "最低", some "最低"⟩, tp⟩
            ⟨c, sa, sb, sc⟩).2 = 40) := by
  have main : ∀ (p : UserProfile) (f : ShelterFeatures),
      itemWeight p.needs .a ≤ 0 → itemWeight p.needs .b ≤ 0 →
      itemWeight p.needs .c ≤ 0 →
      (calculate_recommendation_score p f).2
        = min 100 (100 + claimAcquiredWeight p.needs f) := by
    intro p f h1 h2 h3
    have hw : ¬ 0 < claimTotalWeight p.needs := by
      unfold claimTotalWeight posW
      split_ifs <;> omega
    have hraw := supply_score_raw_eq p.needs f
    rw [if_neg hw] at hraw
    obtain ⟨k, hk⟩ := claimAcquiredWeight_half p.needs f
    obtain ⟨m, hm⟩ := min100_half k
    rw [calc_score_snd, hraw, hk, hm, pyRound1_half, ← hm, ← hk]
  have hA : itemWeight ⟨some "最低", some "最低", some "最低"⟩ .a ≤ 0 := by decide
  have hB : itemWeight ⟨some "最低", some "最低", some "最低"⟩ .b ≤ 0 := by decide
  have hC : itemWeight ⟨some "最低", some "最低", some "最低"⟩ .c ≤ 0 := by decide
  refine ⟨main, fun tp c => ?_, fun tp c sa sb sc ha hb hc => ?_⟩
  · rw [main ⟨⟨some "最低", some "最低", some "最低"⟩, tp⟩ ⟨c, 0, 0, 0⟩ hA hB hC]
    show min (100 : ℚ)
        (100 + claimAcquiredWeight ⟨some "最低", some "最低", some "最低"⟩
          ⟨c, 0, 0, 0⟩) = 100
    have hacq : claimAcquiredWeight ⟨some "最低", some "最低", some "最低"⟩
        ⟨c, 0, 0, 0⟩ = 0 := by
      unfold claimAcquiredWeight claimItemAcquired
      norm_num
    rw [hacq]
    norm_num
  · rw [main ⟨⟨some "最低", some "最低", some "最低"⟩, tp⟩ ⟨c, sa, sb, sc⟩
      hA hB hC]
    show min (100 : ℚ)
        (100 + claimAcquiredWeight ⟨some "最低", some "最低", some "最低"⟩
          ⟨c, sa, sb, sc⟩) = 40
    have hia : itemWeight ⟨some "最低", some "最低", some "最低"⟩ .a = -20 := by
      decide
    have hib : itemWeight ⟨some "最低", some "最低", some "最低"⟩ .b = -20 := by
      decide
    have hic : itemWeight ⟨some "最低", some "最低", some "最低"⟩ .c = -20 := by
      decide
    unfold claimAcquiredWeight
    dsimp only
    rw [hia, hib, hic, claimItemAcquired_full _ _ ha,
      claimItemAcquired_full _ _ hb, claimItemAcquired_full _ _ hc]
    norm_num [min_def]

/-- Witness for C2 at a concrete all-nonpositive profile and snapshot. -/
theorem c2_supply_score_zero_total_witness :
    (calculate_recommendation_score ⟨⟨some "低", some "最低", some "低"⟩, 2⟩
        ⟨50, 10, 30, 0⟩).2
      = min 100 (100 + claimAcquiredWeight ⟨some "低", some "最低", some "低"⟩
          ⟨50, 10, 30, 0⟩) :=
  c2_supply_score_zero_total.1 ⟨⟨some "低", some "最低", some "低"⟩, 2⟩
    ⟨50, 10, 30, 0⟩ (by decide) (by decide) (by decide)

/-- Round-half-to-even never exceeds the ceiling. -/
lemma roundHalfEven_le_ceil (q : ℚ) : roundHalfEven q ≤ ⌈q⌉ := by
  have hfl : (⌊q⌋ : ℚ) ≤ q := Int.floor_le q
  unfold roundHalfEven
  split_ifs with h1 h2 h3
  · exact Int.floor_le_ceil q
  · exact Int.add_one_le_iff.mpr (Int.lt_ceil.mpr (by linarith))
  · exact Int.floor_le_ceil q
  · exact Int.add_one_le_iff.mpr (Int.lt_ceil.mpr (by linarith))

/-- Rounding to one decimal place preserves an upper bound of 100. -/
lemma pyRound1_le_100 (q : ℚ) (h : q ≤ 100) : pyRound1 q ≤ 100 := by
  unfold pyRound1
  have h1 : roundHalfEven (q * 10) ≤ ⌈q * 10⌉ := roundHalfEven_le_ceil _
  have h2 : ⌈q * 10⌉ ≤ (1000 : ℤ) := Int.ceil_le.mpr (by push_cast; linarith)
  have h3 : ((roundHalfEven (q * 10)) : ℚ) ≤ 1000 := by
    exact_mod_cast le_trans h1 h2
  linarith

/-- The first returned component is the rounded claim-side composite. -/
lemma calc_fst_eq (p : UserProfile) (f : ShelterFeatures) :
    (calculate_recommendation_score p f).1 = pyRound1 (claimComposite p f) := by
  unfold calculate_recommendation_score claimComposite claimCongestionScore
    claimWeights
  by_cases h : p.total_people ≥ 6
  · simp only [if_pos h]
    norm_num
  · simp only [if_neg h]
    norm_num

/-- C3: the composite score is the rounded weighted average of the
congestion sub-score and the supply sub-score, where groups of 6 or more
use `max(0, 100 - congestion)` with weights (7, 3) and smaller groups use
the reported congestion value directly with weights (5, 5); the branch
switches exactly at `totalPeople == 6`. -/
theorem c3_composite_formula :
    (∀ (p : UserProfile) (f : ShelterFeatures),
        calculate_recommendation_score p f
          = (pyRound1 (claimComposite p f),
              pyRound1 (supply_score_raw p.needs f)))
      ∧ (∀ p : UserProfile, p.total_people = 5 → claimWeights p = (5, 5))
      ∧ (∀ p : UserProfile, p.total_people = 6 → claimWeights p = (7, 3)) := by
  refine ⟨fun p f => ?_, fun p h => ?_, fun p h => ?_⟩
  · exact Prod.ext (calc_fst_eq p f) (calc_score_snd p f)
  · unfold claimWeights
    rw [if_neg (by omega)]
  · unfold claimWeights
    rw [if_pos (by omega)]

/-- Witness for C3 boundary conjuncts at `totalPeople` 5 and 6. -/
theorem c3_composite_formula_witness :
    claimWeights ⟨⟨some "中", some "中", some "中"⟩, 5⟩ = (5, 5)
      ∧ claimWeights ⟨⟨some "中", some "中", some "中"⟩, 6⟩ = (7, 3) :=
  ⟨c3_composite_formula.2.1 ⟨⟨some "中", some "中", some "中"⟩, 5⟩ rfl,
    c3_composite_formula.2.2 ⟨⟨some "中", some "中", some "中"⟩, 6⟩ rfl⟩

/-- C4: for groups of fewer than 6 people and congestion at most 100, the
returned composite score is at most 100 (the supply sub-score is clamped
at 100, the weighted average cannot exceed 100, and rounding preserves
the bound). -/
theorem c4_composite_le_100_small_group (p : UserProfile)
    (f : ShelterFeatures) (hp : p.total_people < 6)
    (hc : f.congestion ≤ 100) :
    (calculate_recommendation_score p f).1 ≤ 100 := by
  have h6 : ¬ p.total_people ≥ 6 := not_le.mpr hp
  rw [calc_fst_eq]
  apply pyRound1_le_100
  have hss : supply_score_raw p.needs f ≤ 100 := by
    rw [supply_score_raw_eq]
    exact min_le_left _ _
  unfold claimComposite claimCongestionScore claimWeights
  simp only [if_neg h6]
  rw [div_le_iff₀ (by norm_num : (0:ℚ) < (5, 5).1 + (5, 5).2)]
  have h51 : ((5, 5) : ℚ × ℚ).1 = 5 := rfl
  have h52 : ((5, 5) : ℚ × ℚ).2 = 5 := rfl
  rw [h51, h52]
  linarith

/-- Witness for C4 at a concrete small-group profile and snapshot. -/
theorem c4_composite_le_100_small_group_witness :
    (⟨⟨some "中", some "高", some "低"⟩, 2⟩ : UserProfile).total_people < 6
      ∧ (⟨50, 30, 10, 0⟩ : ShelterFeatures).congestion ≤ 100
      ∧ (calculate_recommendation_score ⟨⟨some "中", some "高", some "低"⟩, 2⟩
          ⟨50, 30, 10, 0⟩).1 ≤ 100 :=
  ⟨by norm_num, by norm_num,
    c4_composite_le_100_small_group ⟨⟨some "中", some "高", some "低"⟩, 2⟩
      ⟨50, 30, 10, 0⟩ (by norm_num) (by norm_num)⟩

/-- C5: the priority-weight lookup is a total function mapping 最高
(Highest) to 10, 高 (High) to 6, 中 (Medium) to 3, 低 (Low) to -5 and
最低 (Lowest) to -20, with every other label resolving to the Medium
weight 3, and it is deterministic (equal labels give equal weights). -/
theorem c5_priority_weight_table :
    priorityWeight "最高" = 10 ∧ priorityWeight "高" = 6
      ∧ priorityWeight "中" = 3 ∧ priorityWeight "低" = -5
      ∧ priorityWeight "最低" = -20
      ∧ (∀ s : String, s ≠ "最高" → s ≠ "高" → s ≠ "中" → s ≠ "低" →
          s ≠ "最低" → priorityWeight s = 3)
      ∧ (∀ s t : String, s = t → priorityWeight s = priorityWeight t) := by
  refine ⟨by decide, by decide, by decide, by decide, by decide,
    fun s h1 h2 h3 h4 h5 => ?_, fun s t h => by rw [h]⟩
  have hb1 : (s == "最高") = false := beq_eq_false_iff_ne.mpr h1
  have hb2 : (s == "高") = false := beq_eq_false_iff_ne.mpr h2
  have hb3 : (s == "中") = false := beq_eq_false_iff_ne.mpr h3
  have hb4 : (s == "低") = false := beq_eq_false_iff_ne.mpr h4
  have hb5 : (s == "最低") = false := beq_eq_false_iff_ne.mpr h5
  simp [priorityWeight, PRIORITY_WEIGHTS, List.lookup, hb1, hb2, hb3, hb4,
    hb5]

/-- Witness for C5 at an unrecognized label. -/
theorem c5_priority_weight_table_witness : priorityWeight "banana" = 3 :=
  c5_priority_weight_table.2.2.2.2.2.1 "banana" (by decide) (by decide)
    (by decide) (by decide) (by decide)

/-- C6 counterexample: the sanitizer does not default the adult count to
0 on missing input (it defaults to 1, observable in `total_people`), does
not clamp negative counts to non-negative, and passes unrecognized
priority strings through instead of coercing them to a valid label. -/
theorem c6_sanitizer_counterexample :
    safe_int PyVal.none 1 = 1
      ∧ (buildUserProfile ⟨PyVal.none, PyVal.int 5, PyVal.none, PyVal.none,
          PyVal.none⟩).total_people = 6
      ∧ safe_int (PyVal.int (-3)) 0 = -3
      ∧ safe_int (PyVal.int (-3)) 0 < 0
      ∧ safe_str (PyVal.str "banana") "中" = "banana"
      ∧ "banana" ∉ ["最高", "高", "中", "低", "最低"] := by
  refine ⟨rfl, rfl, rfl, by decide, rfl, by decide⟩

/-- C6 amended: the sanitizer coerces counts with `int()`, defaulting the
adult count to 1 and the child count to 0 on non-numeric or missing
input; negative integers pass through unchanged and only the combined
`total_people` is floored at 1; priority strings default to 中 (Medium)
exactly when empty or missing, and any other string passes through
unchanged. -/
theorem c6_sanitizer_amended :
    (∀ data : RawRequest,
        buildUserProfile data
          = { needs := { supply_a := some (safe_str data.supply_a "中"),
                         supply_b := some (safe_str data.supply_b "中"),
                         supply_c := some (safe_str data.supply_c "中") },
              total_people := max 1 (safe_int data.adult_count 1
                  + safe_int data.child_count 0) })
      ∧ (∀ data : RawRequest, 1 ≤ (buildUserProfile data).total_people)
      ∧ safe_int PyVal.none 1 = 1
      ∧ safe_int PyVal.none 0 = 0
      ∧ (∀ s : String, parsePyInt s = Option.none →
          safe_int (PyVal.str s) 1 = 1 ∧ safe_int (PyVal.str s) 0 = 0)
      ∧ (∀ n : ℤ, safe_int (PyVal.int n) 0 = n)
      ∧ safe_str PyVal.none "中" = "中"
      ∧ safe_str (PyVal.str "") "中" = "中"
      ∧ (∀ s : String, s ≠ "" → safe_str (PyVal.str s) "中" = s) := by
  refine ⟨fun data => rfl, fun data => le_max_left _ _, rfl, rfl,
    fun s h => ?_, fun n => rfl, rfl, rfl, fun s h => ?_⟩
  · refine ⟨?_, ?_⟩ <;> simp [safe_int, h]
  · simp only [safe_str, if_neg h]

/-- Witness for C6 (amended) at a non-numeric string and a non-empty
label. -/
theorem c6_sanitizer_amended_witness :
    (parsePyInt "abc" = Option.none ∧ safe_int (PyVal.str "abc") 1 = 1)
      ∧ ("banana" ≠ "" ∧ safe_str (PyVal.str "banana") "中" = "banana") :=
  ⟨⟨by decide, (c6_sanitizer_amended.2.2.2.2.1 "abc" (by decide)).1⟩,
    ⟨by decide, c6_sanitizer_amended.2.2.2.2.2.2.2.2 "banana" (by decide)⟩⟩

/-- The distance comparison is transitive. -/
lemma distLe_trans : ∀ a b c : Candidate,
    distLe a b = true → distLe b c = true → distLe a c = true := by
  intro a b c hab hbc
  simp only [distLe, decide_eq_true_eq] at *
  linarith

/-- The distance comparison is total. -/
lemma distLe_total : ∀ a b : Candidate,
    (distLe a b || distLe b a) = true := by
  intro a b
  simp only [distLe, Bool.or_eq_true, decide_eq_true_eq]
  exact le_total _ _

/-- C7: the nearest-candidate selection keeps `min 5 n` candidates,
sorted ascending by distance; equal-distance candidates of the full sort
are kept in input order (the sort is stable), and the input list is
untouched (the embedding is a pure function of it). -/
theorem c7_select_nearest :
    (∀ l : List Candidate, (nearest5 l).length = min 5 l.length)
      ∧ (∀ l : List Candidate,
          List.Pairwise (fun a b : Candidate => a.distance ≤ b.distance)
            (nearest5 l))
      ∧ (∀ (l : List Candidate) (d : ℚ),
          (sortByDistance l).filter (fun c => decide (c.distance = d))
            = l.filter (fun c => decide (c.distance = d))) := by
  refine ⟨fun l => ?_, fun l => ?_, fun l d => ?_⟩
  · simp [nearest5, sortByDistance, List.length_take, List.length_mergeSort]
  · have hs := List.sorted_mergeSort distLe_trans distLe_total l
    have hp : List.Pairwise (fun a b : Candidate => distLe a b = true)
        (nearest5 l) :=
      List.Pairwise.sublist (List.take_sublist 5 _) hs
    exact hp.imp (fun h => by simpa [distLe] using h)
  · have hmem : ∀ a ∈ l.filter (fun c => decide (c.distance = d)),
        a.distance = d := by
      intro a ha
      have := (List.mem_filter.mp ha).2
      simpa using this
    have hpair : (l.filter (fun c => decide (c.distance = d))).Pairwise
        (fun a b => distLe a b = true) := by
      apply List.pairwise_of_forall_mem_list
      intro a ha b hb
      simp only [distLe, decide_eq_true_eq]
      rw [hmem a ha, hmem b hb]
    have hstable := List.sublist_mergeSort distLe_trans distLe_total hpair
      (List.filter_sublist l)
    have hperm : ((l.mergeSort distLe).filter
          (fun c => decide (c.distance = d))).Perm
        (l.filter (fun c => decide (c.distance = d))) :=
      (List.mergeSort_perm l distLe).filter _
    have hsub2 : (l.filter (fun c => decide (c.distance = d))).Sublist
        ((l.mergeSort distLe).filter (fun c => decide (c.distance = d))) := by
      have h1 := List.Sublist.filter (fun c => decide (c.distance = d)) hstable
      rwa [List.filter_eq_self.mpr
        (fun a ha => (List.mem_filter.mp ha).2)] at h1
    exact (hsub2.eq_of_length hperm.length_eq.symm).symm

/-- A non-empty sorted list yields a non-empty window. -/
lemma get_nearest_window_length_pos (s : List Candidate) (h : s ≠ []) :
    0 < (get_nearest_window s).length := by
  unfold get_nearest_window
  rw [if_neg h]
  simp only [List.length_drop, List.length_take]
  have hp : 0 < s.length := List.length_pos.mpr h
  split_ifs <;> omega

/-- C8: the nearby-listing window of the distance-ascending sort slices
from index 1 (when at least 2 shelters exist, else 0) to index 4 (when at
least 4 exist, else the length); so the result is empty iff the input is,
a single shelter is returned as-is, and three shelters yield the ones at
sorted indices 1 and 2. -/
theorem c8_nearest_window :
    (∀ l : List Candidate, get_nearest_shelters l = [] ↔ l = [])
      ∧ (∀ a : Candidate, get_nearest_window [a] = [a])
      ∧ (∀ a b c : Candidate, get_nearest_window [a, b, c] = [b, c])
      ∧ (∀ l : List Candidate, l ≠ [] →
          get_nearest_window l
            = (l.take (if l.length ≥ 4 then 4 else l.length)).drop
                (if l.length ≥ 2 then 1 else 0)) := by
  refine ⟨fun l => ⟨fun h => ?_,
      fun h => by
        subst h
        simp [get_nearest_shelters, sortByDistance, List.mergeSort_nil,
          get_nearest_window]⟩,
    fun a => rfl, fun a b c => rfl, fun l h => ?_⟩
  · by_contra hne
    have hs : sortByDistance l ≠ [] := by
      intro he
      apply hne
      have : l.length = 0 := by
        have := congrArg List.length he
        simpa [sortByDistance, List.length_mergeSort] using this
      exact List.length_eq_zero.mp this
    have hpos := get_nearest_window_length_pos _ hs
    rw [show get_nearest_window (sortByDistance l)
        = get_nearest_shelters l from rfl, h] at hpos
    simp at hpos
  · unfold get_nearest_window
    rw [if_neg h]

/-- Witness for C8 slice conjunct at a concrete one-element list. -/
theorem c8_nearest_window_witness :
    ([⟨"A", 0, 0, 1⟩] : List Candidate) ≠ []
      ∧ get_nearest_window [⟨"A", 0, 0, 1⟩]
        = (([⟨"A", 0, 0, 1⟩] : List Candidate).take
            (if ([⟨"A", 0, 0, 1⟩] : List Candidate).length ≥ 4 then 4
              else ([⟨"A", 0, 0, 1⟩] : List Candidate).length)).drop
            (if ([⟨"A", 0, 0, 1⟩] : List Candidate).length ≥ 2 then 1
              else 0) :=
  ⟨by decide, c8_nearest_window.2.2.2 [⟨"A", 0, 0, 1⟩] (by decide)⟩

/-- The descending score comparison is transitive. -/
lemma scoreDescLe_trans : ∀ a b c : ScoredShelter,
    scoreDescLe a b = true → scoreDescLe b c = true →
    scoreDescLe a c = true := by
  intro a b c hab hbc
  simp only [scoreDescLe, decide_eq_true_eq] at *
  linarith

/-- The descending score comparison is total. -/
lemma scoreDescLe_total : ∀ a b : ScoredShelter,
    (scoreDescLe a b || scoreDescLe b a) = true := by
  intro a b
  simp only [scoreDescLe, Bool.or_eq_true, decide_eq_true_eq]
  exact le_total _ _

/-- C9: recalculation rescores each entry in place — `data`, `name`,
`lat`, `lng` and `distance` are unchanged and only `match_score` /
`match_rate` are overwritten with freshly computed values — and the
result is the rescored entries re-sorted descending by `match_score`
(a permutation of the rescored input). -/
theorem c9_recalculate_preserves_fields :
    (∀ (p : UserProfile) (l : List ScoredShelter),
        (recalcCore p l).Perm (l.map (rescoreEntry p)))
      ∧ (∀ (p : UserProfile) (l : List ScoredShelter),
          List.Pairwise
            (fun a b : ScoredShelter => b.match_score ≤ a.match_score)
            (recalcCore p l))
      ∧ (∀ (p : UserProfile) (e : ScoredShelter),
          (rescoreEntry p e).data = e.data
            ∧ (rescoreEntry p e).name = e.name
            ∧ (rescoreEntry p e).lat = e.lat
            ∧ (rescoreEntry p e).lng = e.lng
            ∧ (rescoreEntry p e).distance = e.distance
            ∧ (rescoreEntry p e).match_score
              = (calculate_recommendation_score p e.data).1
            ∧ (rescoreEntry p e).match_rate
              = (calculate_recommendation_score p e.data).2) := by
  refine ⟨fun p l => List.mergeSort_perm _ _, fun p l => ?_,
    fun p e => ⟨rfl, rfl, rfl, rfl, rfl, rfl, rfl⟩⟩
  have hs := List.sorted_mergeSort scoreDescLe_trans scoreDescLe_total
    (l.map (rescoreEntry p))
  exact hs.imp (fun h => by simpa [scoreDescLe] using h)

/-- C10: a recalculation request that omits `shelter_list` entirely does
not fail: the list silently defaults to empty and the handler returns an
empty ranked list as a successful response. -/
theorem c10_missing_shelter_list_ok (req : RecalcRequest)
    (h : req.shelter_list = Option.none) :
    recalculate_shelters req = Except.ok [] := by
  unfold recalculate_shelters recalcCore
  rw [h]
  simp [List.mergeSort_nil]

/-- Witness for C10 at a concrete request with every field missing. -/
theorem c10_missing_shelter_list_ok_witness :
    (⟨Option.none, PyVal.none, PyVal.none, PyVal.none, PyVal.none,
        PyVal.none⟩ : RecalcRequest).shelter_list = Option.none
      ∧ recalculate_shelters ⟨Option.none, PyVal.none, PyVal.none,
          PyVal.none, PyVal.none, PyVal.none⟩ = Except.ok [] :=
  ⟨rfl, c10_missing_shelter_list_ok _ rfl⟩
